import Mathlib

/-!
Shallow embedding of the `posts` app of the Django-Backend-basicauth
repository (`src/posts/views.py`, `src/posts/urls.py`).

The persistence store is modelled as an explicit `Store` value threaded
through every handler; each handler returns its HTTP `Response` together
with the resulting store.  Components of the repository that are referenced
by `views.py` but whose files are not under `src/` (the `Post` model, the
`PostSerializer`, the `AuthorOrReadOnly` permission and the
`CurrentUserPostsSerializer`) are modelled from the specification and carry
a doc comment saying so.
-/

namespace Basicauth

/-- HTTP status constants mirroring `rest_framework.status`. -/
def HTTP_200_OK : Nat := 200

def HTTP_201_CREATED : Nat := 201

def HTTP_400_BAD_REQUEST : Nat := 400

def HTTP_403_FORBIDDEN : Nat := 403

def HTTP_404_NOT_FOUND : Nat := 404

def HTTP_204_NO_CONTENT : Nat := 204

/-- Modelled from the spec: `posts/models.py` is not under `src/`.  A `Post`
record has a system-assigned integer identifier, title text, content text, an
author reference (here the username of the author, the identity the permission
policy and the `author__username` filter compare against) and a
system-assigned creation timestamp. -/
structure Post where
  id : Nat
  title : String
  content : String
  author : String
  created_at : Nat
  deriving Repr, DecidableEq

/-- The persistence store: the sequence of persisted `Post` records plus the
next system-assigned primary key. -/
structure Store where
  posts : List Post
  nextId : Nat
  deriving Repr, DecidableEq

/-- `Post.objects.get(pk=post_id)` / `get_object_or_404(Post, pk=post_id)`:
look up a record by primary key. -/
def Store.getByPk (s : Store) (pid : Nat) : Option Post :=
  s.posts.find? (fun q => q.id == pid)

/-- The serialized wire representation of a `Post` (`{id, title, content,
author, created_at}`). -/
structure PostRepr where
  id : Nat
  title : String
  content : String
  author : String
  created_at : Nat
  deriving Repr, DecidableEq

/-- A serialized view of a user that embeds the posts of that user. -/
structure UserRepr where
  username : String
  posts : List PostRepr
  deriving Repr, DecidableEq

/-- A response body: empty, a list of posts, a single post, field-keyed
validation errors, a detail/confirmation message, or a user view. -/
inductive Body where
  | empty : Body
  | postList : List PostRepr → Body
  | postOne : PostRepr → Body
  | errors : List (String × String) → Body
  | message : String → Body
  | user : UserRepr → Body
  deriving Repr, DecidableEq

/-- `rest_framework.response.Response`: a status code and a body. -/
structure Response where
  status : Nat
  body : Body
  deriving Repr, DecidableEq

/-- The incoming request data for create/update: the fields of the Post
schema the caller may supply; a missing field is `none`. -/
structure PostInput where
  title : Option String
  content : Option String
  deriving Repr, DecidableEq

/-- Modelled from the spec: `posts/serializers.py` (`PostSerializer`) is not
under `src/`.  Serialization produces the `{id, title, content, author,
created_at}` representation of a record. -/
def serializePost (p : Post) : PostRepr :=
  { id := p.id, title := p.title, content := p.content,
    author := p.author, created_at := p.created_at }

/-- `PostSerializer(posts, many=True)`: serialize a sequence of records. -/
def serializeMany (ps : List Post) : List PostRepr :=
  ps.map serializePost

/-- Modelled from the spec: `PostSerializer` validation (`serializers.py` is
not under `src/`).  `title` and `content` are required fields; a missing
field yields a field-keyed error message. -/
def PostSerializer.validationErrors (input : PostInput) : List (String × String) :=
  (match input.title with
   | none => [("title", "This field is required.")]
   | some _ => []) ++
  (match input.content with
   | none => [("content", "This field is required.")]
   | some _ => [])

/-- Modelled from the spec: `PostSerializer.save()` on create (`serializers.py`
is not under `src/`).  Persist a new record: the identifier and creation
timestamp are system-assigned and the author is set to the identity of the
calling user. -/
def PostSerializer.create (s : Store) (caller : String) (now : Nat)
    (t c : String) : Post × Store :=
  let p : Post := { id := s.nextId, title := t, content := c,
                    author := caller, created_at := now }
  (p, { posts := s.posts ++ [p], nextId := s.nextId + 1 })

/-- Modelled from the spec: `PostSerializer.save()` on update (`serializers.py`
is not under `src/`).  Full replace of `title` and `content`; the identifier,
author and creation timestamp are not reassignable via update. -/
def PostSerializer.update (s : Store) (old : Post) (t c : String) : Post × Store :=
  let p : Post := { old with title := t, content := c }
  (p, { s with posts := s.posts.map (fun q => if q.id == old.id then p else q) })

/-- The HTTP methods relevant to the permission policy. -/
inductive Method where
  | GET | HEAD | OPTIONS | POST | PUT | DELETE
  deriving Repr, DecidableEq

/-- The safe methods of the permission policy. -/
def Method.isSafe : Method → Bool
  | .GET => true
  | .HEAD => true
  | .OPTIONS => true
  | _ => false

/-- Modelled from the spec: `posts/permissions.py` (`AuthorOrReadOnly`) is not
under `src/`.  Safe methods (GET, HEAD, OPTIONS) are permitted for any
caller; unsafe methods are permitted only when the identity of the authenticated
caller equals the author identity of the target Post. -/
def AuthorOrReadOnly.has_object_permission (m : Method) (caller : String)
    (p : Post) : Bool :=
  m.isSafe || caller == p.author

/-- The body of the framework default "forbidden" response. -/
def forbiddenBody : Body :=
  Body.message "You do not have permission to perform this action."

/-- `CustomPaginator` as declared in `views.py`. -/
structure CustomPaginator where
  page_size : Nat := 3
  page_query_param : String := "page"
  page_size_query_param : String := "page_size"
  deriving Repr, DecidableEq

namespace PostListCreateView

/-- The paginator class declared on `PostListCreateView`. -/
def pagination_class : CustomPaginator := {}

/-- `PostListCreateView.get`: serialize `Post.objects.all()` and return it
with status 200.  The declared paginator is never applied. -/
def get (s : Store) : Response × Store :=
  ({ status := HTTP_200_OK, body := Body.postList (serializeMany s.posts) }, s)

/-- `PostListCreateView.post`: validate the payload against the Post schema;
on success persist (author set to the authenticated caller) and return the
created representation with 201; on failure return the field-keyed errors
with 400. -/
def post (s : Store) (caller : String) (now : Nat) (input : PostInput) :
    Response × Store :=
  match input.title, input.content with
  | some t, some c =>
      let r := PostSerializer.create s caller now t c
      ({ status := HTTP_201_CREATED, body := Body.postOne (serializePost r.1) }, r.2)
  | _, _ =>
      ({ status := HTTP_400_BAD_REQUEST,
         body := Body.errors (PostSerializer.validationErrors input) }, s)

end PostListCreateView

namespace PostRetriveUpdateDeleteView

/-- `PostRetriveUpdateDeleteView.get`: `get_object_or_404` then serialize with
200; GET is a safe method, so `AuthorOrReadOnly` permits any caller. -/
def get (s : Store) (pid : Nat) : Response × Store :=
  match s.getByPk pid with
  | none => ({ status := HTTP_404_NOT_FOUND, body := Body.empty }, s)
  | some p => ({ status := HTTP_200_OK, body := Body.postOne (serializePost p) }, s)

/-- `PostRetriveUpdateDeleteView.put`: direct existence lookup first
(`Post.objects.get` / `DoesNotExist` → bare 404), then the
`AuthorOrReadOnly` object-level check (modelled from the spec), then schema
validation (400 with field errors), then persist and return the updated
representation with the default 200 status. -/
def put (s : Store) (caller : String) (pid : Nat) (input : PostInput) :
    Response × Store :=
  match s.getByPk pid with
  | none => ({ status := HTTP_404_NOT_FOUND, body := Body.empty }, s)
  | some p =>
      if AuthorOrReadOnly.has_object_permission Method.PUT caller p then
        match input.title, input.content with
        | some t, some c =>
            let r := PostSerializer.update s p t c
            ({ status := HTTP_200_OK, body := Body.postOne (serializePost r.1) }, r.2)
        | _, _ =>
            ({ status := HTTP_400_BAD_REQUEST,
               body := Body.errors (PostSerializer.validationErrors input) }, s)
      else
        ({ status := HTTP_403_FORBIDDEN, body := forbiddenBody }, s)

/-- `PostRetriveUpdateDeleteView.delete`: `get_object_or_404` (absent → 404
with empty body), then the `AuthorOrReadOnly` object-level check (modelled
from the spec), then delete the record and return a confirmation message
with status 204. -/
def delete (s : Store) (caller : String) (pid : Nat) : Response × Store :=
  match s.getByPk pid with
  | none => ({ status := HTTP_404_NOT_FOUND, body := Body.empty }, s)
  | some p =>
      if AuthorOrReadOnly.has_object_permission Method.DELETE caller p then
        ({ status := HTTP_204_NO_CONTENT,
           body := Body.message "Post deleted successfully." },
         { s with posts := s.posts.filter (fun q => !(q.id == p.id)) })
      else
        ({ status := HTTP_403_FORBIDDEN, body := forbiddenBody }, s)

end PostRetriveUpdateDeleteView

/-- Modelled from the spec: `users/serializers.py`
(`CurrentUserPostsSerializer`) is not under `src/`.  It serializes the
authenticated user entity embedding the posts of that user. -/
def CurrentUserPostsSerializer (s : Store) (username : String) : UserRepr :=
  { username := username,
    posts := serializeMany (s.posts.filter (fun p => p.author == username)) }

/-- `get_posts_for_current_user`: serialize the authenticated caller with the
`CurrentUserPostsSerializer` and return 200. -/
def get_posts_for_current_user (s : Store) (user : String) : Response × Store :=
  ({ status := HTTP_200_OK, body := Body.user (CurrentUserPostsSerializer s user) }, s)

/-- `list_posts_for_author`: read the optional `username` query parameter;
when truthy (present and non-empty) filter `Post.objects` by
`author__username` (case-sensitive exact match), otherwise take all records;
serialize and return 200. -/
def list_posts_for_author (s : Store) (username : Option String) :
    Response × Store :=
  let posts :=
    match username with
    | some u => if u == "" then s.posts else s.posts.filter (fun p => p.author == u)
    | none => s.posts
  ({ status := HTTP_200_OK, body := Body.postList (serializeMany posts) }, s)


/-- A concrete post authored by "alice", used by witness theorems. -/
def alicePost : Post :=
  { id := 1, title := "A", content := "B", author := "alice", created_at := 0 }

/-- A concrete store with a single post, used by witness theorems. -/
def demoStore : Store := { posts := [alicePost], nextId := 2 }

/-- A concrete valid replacement payload, used by witness theorems. -/
def demoInput : PostInput := { title := some "A2", content := some "B2" }

/-- The record `alicePost` after the replacement `demoInput` is applied. -/
def updatedPost : Post :=
  { id := 1, title := "A2", content := "B2", author := "alice", created_at := 0 }

/-- C1: For the post item endpoint, safe methods (GET, HEAD, OPTIONS) are
permitted for every caller and the author is always permitted, while unsafe
methods (PUT, DELETE) from any caller who is not the author of the target
Post are denied with a 403 forbidden response and leave the store
unchanged, the handler body never running its update/delete effect. -/
theorem author_or_read_only_policy :
    (∀ (m : Method) (caller : String) (p : Post), m.isSafe = true →
        AuthorOrReadOnly.has_object_permission m caller p = true) ∧
    (∀ (m : Method) (p : Post),
        AuthorOrReadOnly.has_object_permission m p.author p = true) ∧
    (∀ (s : Store) (caller : String) (pid : Nat) (input : PostInput) (p : Post),
        s.getByPk pid = some p → caller ≠ p.author →
        PostRetriveUpdateDeleteView.put s caller pid input
          = ({ status := HTTP_403_FORBIDDEN, body := forbiddenBody }, s)) ∧
    (∀ (s : Store) (caller : String) (pid : Nat) (p : Post),
        s.getByPk pid = some p → caller ≠ p.author →
        PostRetriveUpdateDeleteView.delete s caller pid
          = ({ status := HTTP_403_FORBIDDEN, body := forbiddenBody }, s)) := by
  refine ⟨?_, ?_, ?_, ?_⟩
  · intro m caller p h
    simp [AuthorOrReadOnly.has_object_permission, h]
  · intro m p
    simp [AuthorOrReadOnly.has_object_permission]
  · intro s caller pid input p hfind hne
    simp [PostRetriveUpdateDeleteView.put, hfind,
      AuthorOrReadOnly.has_object_permission, Method.isSafe, hne]
  · intro s caller pid p hfind hne
    simp [PostRetriveUpdateDeleteView.delete, hfind,
      AuthorOrReadOnly.has_object_permission, Method.isSafe, hne]

/-- Witness for C1: the caller "bob" issuing PUT and DELETE on the post of
"alice" receives 403 and the store is unchanged. -/
theorem author_or_read_only_policy_witness :
    PostRetriveUpdateDeleteView.put demoStore "bob" 1 demoInput
      = ({ status := HTTP_403_FORBIDDEN, body := forbiddenBody }, demoStore) ∧
    PostRetriveUpdateDeleteView.delete demoStore "bob" 1
      = ({ status := HTTP_403_FORBIDDEN, body := forbiddenBody }, demoStore) :=
  ⟨author_or_read_only_policy.2.2.1 demoStore "bob" 1 demoInput alicePost rfl
      (by decide),
   author_or_read_only_policy.2.2.2 demoStore "bob" 1 alicePost rfl (by decide)⟩

/-- C2: every valid create payload POSTed by an authenticated caller yields
status 201, the returned representation carries the submitted title and
content with the author set to the identity of the caller, and the record is
appended to the store. -/
theorem create_valid_returns_created (s : Store) (caller : String) (now : Nat)
    (t c : String) :
    PostListCreateView.post s caller now { title := some t, content := some c }
      = ({ status := HTTP_201_CREATED,
           body := Body.postOne { id := s.nextId, title := t, content := c,
                                  author := caller, created_at := now } },
         { posts := s.posts ++ [{ id := s.nextId, title := t, content := c,
                                  author := caller, created_at := now }],
           nextId := s.nextId + 1 }) := rfl

/-- C5: the collection GET handler returns every Post record serialized with
status 200; the declared paginator (page size 3) is never applied, so the
returned sequence always has the length of the full store. -/
theorem list_get_unpaginated :
    PostListCreateView.pagination_class.page_size = 3 ∧
    (∀ s : Store, PostListCreateView.get s
        = ({ status := HTTP_200_OK, body := Body.postList (serializeMany s.posts) }, s)) ∧
    (∀ s : Store, (serializeMany s.posts).length = s.posts.length) := by
  refine ⟨rfl, fun s => rfl, fun s => ?_⟩
  simp [serializeMany]

/-- C10: every GET handler (collection list, item retrieve, current-user
posts, posts-by-author) leaves the Post store unchanged. -/
theorem get_handlers_preserve_store (s : Store) (pid : Nat) (user : String)
    (uname : Option String) :
    (PostListCreateView.get s).2 = s ∧
    (PostRetriveUpdateDeleteView.get s pid).2 = s ∧
    (get_posts_for_current_user s user).2 = s ∧
    (list_posts_for_author s uname).2 = s := by
  refine ⟨rfl, ?_, rfl, ?_⟩
  · cases h : s.getByPk pid <;> simp [PostRetriveUpdateDeleteView.get, h]
  · cases uname <;> simp [list_posts_for_author]


/-- C3: PUT on the item handler returns a bare 404 via a direct existence
lookup when the identifier is absent (for every caller, before any
object-level permission check), 400 with field-keyed errors when the
replacement data fails schema validation, and on valid data persists the
replacement and returns the updated representation with status 200 (which is
not 201). -/
theorem put_semantics :
    (∀ (s : Store) (caller : String) (pid : Nat) (input : PostInput),
        s.getByPk pid = none →
        PostRetriveUpdateDeleteView.put s caller pid input
          = ({ status := HTTP_404_NOT_FOUND, body := Body.empty }, s)) ∧
    (∀ (s : Store) (pid : Nat) (input : PostInput) (p : Post),
        s.getByPk pid = some p →
        (input.title = none ∨ input.content = none) →
        PostRetriveUpdateDeleteView.put s p.author pid input
          = ({ status := HTTP_400_BAD_REQUEST,
               body := Body.errors (PostSerializer.validationErrors input) }, s)
          ∧ PostSerializer.validationErrors input ≠ []) ∧
    (∀ (s : Store) (pid : Nat) (t c : String) (p : Post),
        s.getByPk pid = some p →
        PostRetriveUpdateDeleteView.put s p.author pid
            { title := some t, content := some c }
          = ({ status := HTTP_200_OK,
               body := Body.postOne (serializePost { p with title := t, content := c }) },
             { s with posts := (s.posts.map (fun q =>
                 if q.id == p.id then { p with title := t, content := c } else q)) })) ∧
    HTTP_200_OK ≠ HTTP_201_CREATED := by
  refine ⟨?_, ?_, ?_, by decide⟩
  · intro s caller pid input hfind
    simp [PostRetriveUpdateDeleteView.put, hfind]
  · intro s pid input p hfind hinv
    obtain ⟨ot, oc⟩ := input
    rcases hinv with h | h
    · simp only at h
      subst h
      refine ⟨?_, ?_⟩
      · simp [PostRetriveUpdateDeleteView.put, hfind,
          AuthorOrReadOnly.has_object_permission]
      · simp [PostSerializer.validationErrors]
    · simp only at h
      subst h
      cases ot with
      | none =>
          refine ⟨?_, ?_⟩
          · simp [PostRetriveUpdateDeleteView.put, hfind,
              AuthorOrReadOnly.has_object_permission]
          · simp [PostSerializer.validationErrors]
      | some t =>
          refine ⟨?_, ?_⟩
          · simp [PostRetriveUpdateDeleteView.put, hfind,
              AuthorOrReadOnly.has_object_permission]
          · simp [PostSerializer.validationErrors]
  · intro s pid t c p hfind
    simp [PostRetriveUpdateDeleteView.put, hfind,
      AuthorOrReadOnly.has_object_permission, PostSerializer.update]

/-- Witness for C3: PUT on an empty store returns a bare 404; PUT by the
author with a payload missing both fields returns 400 with field errors; PUT
by the author with a valid payload returns 200 and the updated record. -/
theorem put_semantics_witness :
    PostRetriveUpdateDeleteView.put { posts := [], nextId := 1 } "bob" 7 demoInput
      = ({ status := HTTP_404_NOT_FOUND, body := Body.empty },
         { posts := [], nextId := 1 }) ∧
    PostRetriveUpdateDeleteView.put demoStore "alice" 1
        { title := none, content := none }
      = ({ status := HTTP_400_BAD_REQUEST,
           body := Body.errors (PostSerializer.validationErrors
             { title := none, content := none }) }, demoStore) ∧
    PostRetriveUpdateDeleteView.put demoStore "alice" 1 demoInput
      = ({ status := HTTP_200_OK, body := Body.postOne (serializePost updatedPost) },
         { posts := [updatedPost], nextId := 2 }) :=
  ⟨put_semantics.1 { posts := [], nextId := 1 } "bob" 7 demoInput rfl,
   (put_semantics.2.1 demoStore 1 { title := none, content := none } alicePost rfl
      (Or.inl rfl)).1,
   put_semantics.2.2.1 demoStore 1 "A2" "B2" alicePost rfl⟩

/-- C4: DELETE on the item handler returns 404 with an empty body when the
identifier is absent; when the Post exists and the caller is its author, the
record is removed from the store and the response carries status 204
together with a confirmation message body. -/
theorem delete_semantics :
    (∀ (s : Store) (caller : String) (pid : Nat),
        s.getByPk pid = none →
        PostRetriveUpdateDeleteView.delete s caller pid
          = ({ status := HTTP_404_NOT_FOUND, body := Body.empty }, s)) ∧
    (∀ (s : Store) (pid : Nat) (p : Post),
        s.getByPk pid = some p →
        PostRetriveUpdateDeleteView.delete s p.author pid
          = ({ status := HTTP_204_NO_CONTENT,
               body := Body.message "Post deleted successfully." },
             { s with posts := s.posts.filter (fun q => !(q.id == p.id)) })) := by
  constructor
  · intro s caller pid hfind
    simp [PostRetriveUpdateDeleteView.delete, hfind]
  · intro s pid p hfind
    simp [PostRetriveUpdateDeleteView.delete, hfind,
      AuthorOrReadOnly.has_object_permission]

/-- Witness for C4: DELETE of an absent identifier gives an empty 404; DELETE
by the author removes the record and gives 204 with the confirmation
message. -/
theorem delete_semantics_witness :
    PostRetriveUpdateDeleteView.delete demoStore "alice" 9
      = ({ status := HTTP_404_NOT_FOUND, body := Body.empty }, demoStore) ∧
    PostRetriveUpdateDeleteView.delete demoStore "alice" 1
      = ({ status := HTTP_204_NO_CONTENT,
           body := Body.message "Post deleted successfully." },
         { posts := [], nextId := 2 }) :=
  ⟨delete_semantics.1 demoStore "alice" 9 rfl,
   delete_semantics.2 demoStore 1 alicePost rfl⟩

/-- C6: the posts-by-author handler filters by exact (case-sensitive) author
username when the parameter is present and non-empty, returns all records
when the parameter is absent or empty, and zero matches yield an empty
sequence with status 200 rather than an error. -/
theorem list_posts_for_author_semantics :
    (∀ (s : Store) (u : String), u ≠ "" →
        list_posts_for_author s (some u)
          = ({ status := HTTP_200_OK,
               body := Body.postList
                 (serializeMany (s.posts.filter (fun p => p.author == u))) }, s)) ∧
    (∀ s : Store, list_posts_for_author s none
        = ({ status := HTTP_200_OK, body := Body.postList (serializeMany s.posts) }, s)) ∧
    (∀ s : Store, list_posts_for_author s (some "")
        = ({ status := HTTP_200_OK, body := Body.postList (serializeMany s.posts) }, s)) ∧
    (∀ (s : Store) (u : String), u ≠ "" → (∀ p ∈ s.posts, p.author ≠ u) →
        list_posts_for_author s (some u)
          = ({ status := HTTP_200_OK, body := Body.postList [] }, s)) := by
  refine ⟨?_, fun s => rfl, fun s => rfl, ?_⟩
  · intro s u hu
    simp [list_posts_for_author, hu]
  · intro s u hu hnone
    have hfil : s.posts.filter (fun p => p.author == u) = [] := by
      rw [List.filter_eq_nil_iff]
      intro p hp
      simpa using hnone p hp
    simp [list_posts_for_author, hu, hfil, serializeMany]

/-- Witness for C6: the query "Alice" does not match the author "alice"
(case-sensitive), so the result is an empty sequence with status 200. -/
theorem list_posts_for_author_witness :
    list_posts_for_author demoStore (some "Alice")
      = ({ status := HTTP_200_OK, body := Body.postList [] }, demoStore) :=
  list_posts_for_author_semantics.2.2.2 demoStore "Alice" (by decide)
    (by intro p hp; simp [demoStore, alicePost] at hp; subst hp; decide)

/-- C7: GET on the item handler returns 200 with a representation whose id
equals the requested identifier when the Post exists, and 404 when it does
not. -/
theorem item_get_semantics :
    (∀ (s : Store) (pid : Nat) (p : Post),
        s.getByPk pid = some p →
        PostRetriveUpdateDeleteView.get s pid
          = ({ status := HTTP_200_OK, body := Body.postOne (serializePost p) }, s)
        ∧ (serializePost p).id = pid) ∧
    (∀ (s : Store) (pid : Nat),
        s.getByPk pid = none →
        PostRetriveUpdateDeleteView.get s pid
          = ({ status := HTTP_404_NOT_FOUND, body := Body.empty }, s)) := by
  constructor
  · intro s pid p hfind
    refine ⟨by simp [PostRetriveUpdateDeleteView.get, hfind], ?_⟩
    have := List.find?_some hfind
    simpa [serializePost] using this
  · intro s pid hfind
    simp [PostRetriveUpdateDeleteView.get, hfind]

/-- Witness for C7: GET of identifier 1 returns 200 with id 1; GET of the
absent identifier 9 returns 404. -/
theorem item_get_semantics_witness :
    PostRetriveUpdateDeleteView.get demoStore 1
      = ({ status := HTTP_200_OK, body := Body.postOne (serializePost alicePost) },
         demoStore) ∧
    PostRetriveUpdateDeleteView.get demoStore 9
      = ({ status := HTTP_404_NOT_FOUND, body := Body.empty }, demoStore) :=
  ⟨(item_get_semantics.1 demoStore 1 alicePost rfl).1,
   item_get_semantics.2 demoStore 9 rfl⟩


/-- C8: an invalid create payload (missing `title` or missing `content`) is
not persisted and yields 400 with the field-keyed validation errors, and a
payload missing the title field always produces an error keyed by
"title". -/
theorem create_invalid_returns_400 :
    (∀ (s : Store) (caller : String) (now : Nat) (oc : Option String),
        PostListCreateView.post s caller now { title := none, content := oc }
          = ({ status := HTTP_400_BAD_REQUEST,
               body := Body.errors (PostSerializer.validationErrors
                 { title := none, content := oc }) }, s)) ∧
    (∀ (s : Store) (caller : String) (now : Nat) (ot : Option String),
        PostListCreateView.post s caller now { title := ot, content := none }
          = ({ status := HTTP_400_BAD_REQUEST,
               body := Body.errors (PostSerializer.validationErrors
                 { title := ot, content := none }) }, s)) ∧
    (∀ oc : Option String,
        ("title", "This field is required.") ∈
          PostSerializer.validationErrors { title := none, content := oc }) := by
  refine ⟨fun s caller now oc => rfl, fun s caller now ot => ?_, fun oc => ?_⟩
  · cases ot <;> rfl
  · cases oc <;> simp [PostSerializer.validationErrors]

/-- Primary-key lookup commutes with mapping a function that preserves the
`id` field of every record. -/
theorem find_pk_map (f : Post → Post) (hf : ∀ q, (f q).id = q.id)
    (l : List Post) (pid : Nat) :
    (l.map f).find? (fun q => q.id == pid)
      = (l.find? (fun q => q.id == pid)).map f := by
  induction l with
  | nil => rfl
  | cons a l ih =>
      simp only [List.map_cons, List.find?_cons]
      rw [hf a]
      cases h : (a.id == pid) <;> simp [h, ih]

/-- C9: the author of a Post is established at creation and never changed by
the update operation: for every PUT on the item handler, the record stored
under the requested identifier after the handler runs has the same author
field as the record stored there before. -/
theorem put_preserves_author (s : Store) (caller : String) (pid : Nat)
    (input : PostInput) (p q : Post)
    (hbefore : s.getByPk pid = some p)
    (hafter : ((PostRetriveUpdateDeleteView.put s caller pid input).2).getByPk pid
        = some q) :
    q.author = p.author := by
  have hbefore' : s.posts.find? (fun r => r.id == pid) = some p := hbefore
  simp only [PostRetriveUpdateDeleteView.put, hbefore] at hafter
  cases hb : AuthorOrReadOnly.has_object_permission Method.PUT caller p with
  | false =>
      simp only [hb, Bool.false_eq_true, if_false] at hafter
      rw [hbefore] at hafter
      cases hafter
      rfl
  | true =>
      simp only [hb, if_true] at hafter
      obtain ⟨ot, oc⟩ := input
      cases ot with
      | none =>
          simp only at hafter
          rw [hbefore] at hafter
          cases hafter
          rfl
      | some t =>
          cases oc with
          | none =>
              simp only at hafter
              rw [hbefore] at hafter
              cases hafter
              rfl
          | some c =>
              simp only [PostSerializer.update, Store.getByPk] at hafter
              rw [find_pk_map _ (fun r => ?_) , hbefore'] at hafter
              · rw [Option.map_some'] at hafter
                cases hafter
                simp
              · by_cases h : r.id = p.id <;> simp [h]

/-- Witness for C9: after the author updates post 1 with `demoInput`, the
stored record still has author "alice". -/
theorem put_preserves_author_witness :
    ((PostRetriveUpdateDeleteView.put demoStore "alice" 1 demoInput).2).getByPk 1
      = some updatedPost ∧ updatedPost.author = alicePost.author :=
  ⟨rfl, put_preserves_author demoStore "alice" 1 demoInput alicePost updatedPost
    rfl rfl⟩

end Basicauth
